import Mathlib

/-!
Shallow embedding of `sensor.py` from the `homeassistant-ultimaker-addon`
repository: a throttled HTTP poller (`UltimakerStatusData`) that caches the
JSON body of `GET http://{0}/cluster-api/v1/print_jobs/printing`, and a sensor
entity (`UltimakerStatusSensor.async_update`) that derives a display value
(formatted time string, capped integer percentage, or boolean) from the cached
payload.

Modelling conventions:
- JSON values are the inductive `Json`; JSON numbers are exact rationals
  (Python float arithmetic is modelled exactly over `ℚ`).
- Python exceptions are `Except String`; an exception raised inside
  `async_update` before any assignment to `self._state` leaves the sensor
  state unchanged (`sensorUpdateState`).
- Wall-clock time is `Nat` seconds.  The behaviour of one upstream request is
  a `NetBehavior`: a client error, or completion after `t` seconds with a
  parse result (`none` = unparseable body).  `async_timeout.timeout(5)` turns
  a completion later than `REQUEST_TIMEOUT` seconds into a timeout failure.
-/

namespace Ultimaker

/-- JSON values, as produced by `response.json(...)`.  Numbers are exact
rationals. -/
inductive Json where
  | null : Json
  | bool : Bool → Json
  | num : ℚ → Json
  | str : String → Json
  | arr : List Json → Json
  | obj : List (String × Json) → Json

/-- Python `x is None`. -/
def Json.isNull : Json → Bool
  | .null => true
  | _ => false

/-- Python `len(x)` (line 169: `len(printstatus) > 0`): defined for lists,
strings and dicts, a `TypeError` otherwise (in particular on `None`). -/
def pyLen : Json → Except String Nat
  | .arr xs => .ok xs.length
  | .str s => .ok s.length
  | .obj kvs => .ok kvs.length
  | _ => .error "TypeError: object has no len"

/-- Python `x[0]` (lines 176-186: `printstatus[0]`): first list element or
`IndexError`; one-character string for strings; `KeyError` for dicts (the
integer key `0` is never a JSON object key); `TypeError` otherwise. -/
def pyIndexZero : Json → Except String Json
  | .arr (x :: _) => .ok x
  | .arr [] => .error "IndexError"
  | .str s =>
    match s.data with
    | c :: _ => .ok (.str (String.mk [c]))
    | [] => .error "IndexError"
  | .obj _ => .error "KeyError: 0"
  | _ => .error "TypeError: not subscriptable"

/-- Whether the first character list starts the second one. -/
def startsWithChars : List Char → List Char → Bool
  | [], _ => true
  | _ :: _, [] => false
  | a :: as, b :: bs => a == b && startsWithChars as bs

/-- Whether the first character list occurs contiguously in the second. -/
def containsChars (needle : List Char) : List Char → Bool
  | [] => needle.isEmpty
  | c :: rest => startsWithChars needle (c :: rest) || containsChars needle rest

/-- Python `key in x` (lines 176, 180, 184): dict key test, list membership,
substring test for strings, `TypeError` otherwise. -/
def pyContains (key : String) : Json → Except String Bool
  | .obj kvs => .ok (kvs.lookup key).isSome
  | .arr xs =>
    .ok (xs.any fun j =>
      match j with
      | .str s => s == key
      | _ => false)
  | .str s => .ok (containsChars key.data s.data)
  | _ => .error "TypeError: argument not iterable"

/-- Python `x[key]` for a string key (lines 177-186): dict lookup or
`KeyError`; `TypeError` for every other container (list and string indices
must be integers). -/
def pyGetItem (j : Json) (key : String) : Except String Json :=
  match j with
  | .obj kvs =>
    match kvs.lookup key with
    | some v => .ok v
    | none => .error "KeyError"
  | _ => .error "TypeError: indices must be integers"

/-- Coerce a JSON value to a Python number for arithmetic / `time.gmtime`;
Python booleans are the integers 0 and 1, everything else raises
`TypeError`. -/
def asNumber : Json → Except String ℚ
  | .num q => .ok q
  | .bool true => .ok 1
  | .bool false => .ok 0
  | _ => .error "TypeError: not a number"

/-- Python `int(q)`: truncation toward zero. -/
def pyInt (q : ℚ) : Int :=
  Int.tdiv q.num (q.den : Int)

/-- The whole-second value `time.gmtime` works from: CPython converts a float
argument with floor rounding. -/
def gmFloor (q : ℚ) : Int :=
  Int.fdiv q.num (q.den : Int)

/-- Zero-padded two-digit rendering used by `%H` and `%M`. -/
def pad2 (n : Nat) : String :=
  if n < 10 then "0" ++ toString n else toString n

/-- `time.strftime('%H:%M', time.gmtime(t))` (lines 178, 182): `gmtime`
interprets `t` as seconds since the epoch, so `%H:%M` shows the time of day
`t mod 86400` split into hours and minutes. -/
def strftimeHM (t : Int) : String :=
  pad2 ((t % 86400).toNat / 3600) ++ ":" ++ pad2 ((t % 86400).toNat % 3600 / 60)

/-- `MIN_TIME_BETWEEN_UPDATES = timedelta(seconds=10)` (line 37), in
seconds. -/
def MIN_TIME_BETWEEN_UPDATES : Nat := 10

/-- The bound of `async_timeout.timeout(5)` (line 96), in seconds. -/
def REQUEST_TIMEOUT : Nat := 5

/-- Python `'...{0}...'.format(arg)` on the template's characters: every
occurrence of the placeholder `\x7b0\x7d` is replaced by `arg`. -/
def formatChars (arg : List Char) : List Char → List Char
  | '\x7b' :: '0' :: '\x7d' :: rest => arg ++ formatChars arg rest
  | c :: rest => c :: formatChars arg rest
  | [] => []

/-- Python `template.format(arg)` with a single positional argument. -/
def pyFormat (template arg : String) : String :=
  String.mk (formatChars arg.data template.data)

/-- `BASE_URL` (line 34). -/
def BASE_URL : String := "http://{0}/cluster-api/v1/print_jobs/printing"

/-- State of an `UltimakerStatusData` object plus the state the `@Throttle`
wrapper keeps for its `async_update` method (the wall-clock time of the last
executed call). -/
structure UltimakerStatusData where
  host : String
  url : String
  data : Option Json
  throttleLast : Option Nat

/-- `UltimakerStatusData.__init__` (lines 82-88): the URL is built once from
the configured host, the cache starts empty. -/
def initData (host : String) : UltimakerStatusData :=
  { host := host
    url := pyFormat BASE_URL host
    data := none
    throttleLast := none }

/-- Environment behaviour of one upstream `GET`: the request raises an
`aiohttp.ClientError` (or another exception while connecting), or it completes
after `t` seconds with body parse result `body` (`none` when
`response.json(...)` raises). -/
inductive NetBehavior where
  | fails : NetBehavior
  | completes : Nat → Option Json → NetBehavior

/-- The poll attempt ends in a network error, a timeout, or a JSON parse
error. -/
def netFailure : NetBehavior → Prop
  | .fails => True
  | .completes t body => REQUEST_TIMEOUT < t ∨ body = none

/-- Body of `UltimakerStatusData.async_update` (lines 91-116), without the
throttle: every failure path stores `None`, a parsed body is cached as-is
(the HTTP status code is never checked). -/
def asyncUpdateRaw (st : UltimakerStatusData) (net : NetBehavior) : UltimakerStatusData :=
  match net with
  | .fails => { st with data := none }
  | .completes t body =>
    if REQUEST_TIMEOUT < t then { st with data := none }
    else
      match body with
      | some j => { st with data := some j }
      | none => { st with data := none }

/-- Modelled from the spec: the `homeassistant.util.Throttle` decorator
(line 90) is not part of this repository; the spec defines the throttle
interval as the minimum wall-clock time between permitted upstream polls,
independent of how often the sensor's own update is invoked. -/
def canRun (last : Option Nat) (now : Nat) : Bool :=
  match last with
  | none => true
  | some l => decide (MIN_TIME_BETWEEN_UPDATES ≤ now - l)

/-- One invocation of the throttled `async_update` at wall-clock time `now`:
either the wrapped body runs (issuing exactly one HTTP request, second
component `true`) or the call is skipped. -/
def asyncUpdateAt (st : UltimakerStatusData) (now : Nat) (net : NetBehavior) :
    UltimakerStatusData × Bool :=
  if canRun st.throttleLast now then
    ({ asyncUpdateRaw st net with throttleLast := some now }, true)
  else (st, false)

/-- Run a sequence of throttled update invocations; returns the final state
and the wall-clock times at which an HTTP request was actually issued. -/
def runTrace (st : UltimakerStatusData) : List (Nat × NetBehavior) → UltimakerStatusData × List Nat
  | [] => (st, [])
  | e :: rest =>
    let r := asyncUpdateAt st e.1 e.2
    let rr := runTrace r.1 rest
    (rr.1, (if r.2 then [e.1] else []) ++ rr.2)

/-- A sensor's displayed state (`self._state`): `None` initially, then a
boolean, a formatted string, or an integer. -/
inductive SensorState where
  | b : Bool → SensorState
  | s : String → SensorState
  | i : Int → SensorState
deriving DecidableEq

/-- Lines 175-178 and 179-182: the `3dprinttimeelapsed` / `3dprinttotal`
branch for key `key`, entered with `isprinting` true and state `st`. -/
def timeBranch (key : String) (st : Option SensorState) (ps : Json) :
    Except String (Option SensorState) :=
  match pyIndexZero ps with
  | .error e => .error e
  | .ok first =>
    match pyContains key first with
    | .error e => .error e
    | .ok c =>
      if c then
        match pyGetItem first key with
        | .error e => .error e
        | .ok v =>
          if v.isNull then .ok st
          else
            match asNumber v with
            | .error e => .error e
            | .ok q => .ok (some (.s (strftimeHM (gmFloor q))))
      else .ok st

/-- Lines 183-186: the `3dprintpercentage` branch, entered with `isprinting`
true and state `st`; the displayed value is
`min(int((time_elapsed / time_total) * 100), 100)`. -/
def percentBranch (st : Option SensorState) (ps : Json) :
    Except String (Option SensorState) :=
  match pyIndexZero ps with
  | .error e => .error e
  | .ok first =>
    match pyContains "time_elapsed" first with
    | .error e => .error e
    | .ok c1 =>
      if c1 then
        match pyContains "time_total" first with
        | .error e => .error e
        | .ok c2 =>
          if c2 then
            match pyGetItem first "time_elapsed" with
            | .error e => .error e
            | .ok v1 =>
              if v1.isNull then .ok st
              else
                match pyGetItem first "time_total" with
                | .error e => .error e
                | .ok v2 =>
                  if v2.isNull then .ok st
                  else
                    match asNumber v1, asNumber v2 with
                    | .error e, _ => .error e
                    | _, .error e => .error e
                    | .ok q1, .ok q2 =>
                      if q2 = 0 then .error "ZeroDivisionError"
                      else .ok (some (.i (min (pyInt (q1 / q2 * 100)) 100)))
          else .ok st
      else .ok st

/-- `UltimakerStatusSensor.async_update` (lines 164-188) after the poller
call, as a function of the sensor type, the previous state, and
`latest_data`.  `.error` means the Python method raises (in particular
`len(None)` on line 169 when the last poll failed). -/
def sensorUpdate (ty : String) (state0 : Option SensorState) (printstatus : Option Json) :
    Except String (Option SensorState) :=
  match printstatus with
  | none => .error "TypeError: object of type NoneType has no len"
  | some ps =>
    match pyLen ps with
    | .error e => .error e
    | .ok n =>
      let isprinting : Bool := decide (0 < n)
      let st1 := if ty = "3dprintactive" then some (SensorState.b isprinting) else state0
      if isprinting then
        if ty = "3dprinttimeelapsed" then timeBranch "time_elapsed" st1 ps
        else if ty = "3dprinttotal" then timeBranch "time_total" st1 ps
        else if ty = "3dprintpercentage" then percentBranch st1 ps
        else .ok st1
      else .ok st1

/-- The sensor's displayed state after one update: on every `.error` path the
exception is raised before any assignment to `self._state` (line 169 precedes
line 172, and inside each derivation branch the assignment is the last
statement), so the previous state persists. -/
def sensorUpdateState (ty : String) (state0 : Option SensorState) (printstatus : Option Json) :
    Option SensorState :=
  match sensorUpdate ty state0 printstatus with
  | .ok st => st
  | .error _ => state0

/-- Membership of a time point in the half-open 10-second window starting at
`w`. -/
def inWindow (w t : Nat) : Bool :=
  decide (w ≤ t ∧ t < w + MIN_TIME_BETWEEN_UPDATES)

/-- The issued-request times are at least the throttle interval apart, and the
first one is at least the interval after the time recorded in the throttle
state. -/
def sparseFrom : Option Nat → List Nat → Prop
  | _, [] => True
  | none, t :: ts => sparseFrom (some t) ts
  | some l, t :: ts => l + MIN_TIME_BETWEEN_UPDATES ≤ t ∧ sparseFrom (some t) ts

lemma sparseFrom_runTrace (evts : List (Nat × NetBehavior)) :
    ∀ st : UltimakerStatusData, sparseFrom st.throttleLast (runTrace st evts).2 := by
  induction evts with
  | nil => intro st; simp [runTrace, sparseFrom]
  | cons e rest ih =>
    intro st
    simp only [runTrace]
    rcases hc : canRun st.throttleLast e.1 with _ | _
    · simp only [asyncUpdateAt, hc, Bool.false_eq_true, if_false, List.nil_append]
      exact ih st
    · simp only [asyncUpdateAt, hc, if_true, List.singleton_append]
      have htail := ih { asyncUpdateRaw st e.2 with throttleLast := some e.1 }
      rcases hlast : st.throttleLast with _ | l
      · exact htail
      · refine ⟨?_, htail⟩
        rw [hlast] at hc
        simp only [canRun, MIN_TIME_BETWEEN_UPDATES, decide_eq_true_eq] at hc
        simp only [MIN_TIME_BETWEEN_UPDATES]
        omega

lemma sparseFrom_tail {last : Option Nat} {t : Nat} {ts : List Nat}
    (h : sparseFrom last (t :: ts)) : sparseFrom (some t) ts := by
  rcases last with _ | l
  · exact h
  · exact h.2

lemma sparseFrom_all_ge {l : Nat} : ∀ {ts : List Nat}, sparseFrom (some l) ts →
    ∀ x ∈ ts, l + MIN_TIME_BETWEEN_UPDATES ≤ x := by
  intro ts
  induction ts generalizing l with
  | nil => intro _ x hx; cases hx
  | cons t ts ih =>
    intro h x hx
    rcases List.mem_cons.mp hx with rfl | hx
    · exact h.1
    · have h2 := ih h.2 x hx
      have h1 := h.1
      omega

lemma sparseFrom_window {ts : List Nat} :
    ∀ {last : Option Nat}, sparseFrom last ts →
      ∀ w, (ts.filter (inWindow w)).length ≤ 1 := by
  induction ts with
  | nil => intro _ _ w; simp
  | cons t ts ih =>
    intro last h w
    have htail := sparseFrom_tail h
    have hall := sparseFrom_all_ge htail
    rcases hw : inWindow w t with _ | _
    · simpa [List.filter, hw] using ih htail w
    · simp only [List.filter, hw]
      have hnil : ts.filter (inWindow w) = [] := by
        apply List.filter_eq_nil_iff.mpr
        intro x hx
        have hge := hall x hx
        simp only [inWindow, decide_eq_true_eq] at hw ⊢
        omega
      simp [hnil]

lemma pyFormat_BASE_URL (host : String) :
    pyFormat BASE_URL host = "http://" ++ host ++ "/cluster-api/v1/print_jobs/printing" := by
  obtain ⟨cs⟩ := host
  apply String.ext
  simp [pyFormat, formatChars, BASE_URL, String.data_append]

lemma asyncUpdateRaw_failure (st : UltimakerStatusData) (net : NetBehavior)
    (hfail : netFailure net) : (asyncUpdateRaw st net).data = none := by
  cases net with
  | fails => rfl
  | completes t body =>
    rcases hfail with h | h
    · simp [asyncUpdateRaw, if_pos h]
    · subst h
      simp only [asyncUpdateRaw]
      split
      · rfl
      · rfl

lemma asyncUpdateRaw_success (st : UltimakerStatusData) (t : Nat) (j : Json)
    (ht : t ≤ REQUEST_TIMEOUT) :
    (asyncUpdateRaw st (NetBehavior.completes t (some j))).data = some j := by
  simp [asyncUpdateRaw, Nat.not_lt.mpr ht]

lemma gmFloor_natCast (s : Nat) : gmFloor ((s : ℚ)) = (s : Int) := by
  simp [gmFloor, Rat.num_natCast, Rat.den_natCast, Int.fdiv_one]

/-- C1: for every poll that ends in a network error, timeout, or JSON parse
error, the cache becomes `None`, and every sensor's displayed state is left
unchanged by the sensor's subsequent update (the update raises `TypeError` on
`len(None)` before any assignment to `self._state`). -/
theorem claim_C1 (pst : UltimakerStatusData) (net : NetBehavior) (hfail : netFailure net) :
    (asyncUpdateRaw pst net).data = none
    ∧ ∀ (ty : String) (st : Option SensorState),
        sensorUpdateState ty st ((asyncUpdateRaw pst net).data) = st := by
  have hdata := asyncUpdateRaw_failure pst net hfail
  refine ⟨hdata, ?_⟩
  intro ty st
  rw [hdata]
  rfl

theorem claim_C1_witness :
    netFailure NetBehavior.fails
    ∧ (asyncUpdateRaw (initData "printer.local") NetBehavior.fails).data = none
    ∧ sensorUpdateState "3dprintactive" (some (SensorState.b true))
        ((asyncUpdateRaw (initData "printer.local") NetBehavior.fails).data)
        = some (SensorState.b true) :=
  ⟨True.intro, (claim_C1 (initData "printer.local") NetBehavior.fails True.intro).1,
    (claim_C1 (initData "printer.local") NetBehavior.fails True.intro).2
      "3dprintactive" (some (SensorState.b true))⟩

/-- C2: the throttle interval is 10 seconds, and along every sequence of
sensor-update invocations, the times at which the poller actually issues an
upstream HTTP request contain at most one point of any half-open 10-second
wall-clock window, no matter how often the update is invoked. -/
theorem claim_C2 (host : String) (evts : List (Nat × NetBehavior)) (w : Nat) :
    MIN_TIME_BETWEEN_UPDATES = 10
    ∧ (((runTrace (initData host) evts).2).filter (inWindow w)).length ≤ 1 :=
  ⟨rfl, sparseFrom_window (sparseFrom_runTrace evts (initData host)) w⟩

/-- C3: a throttled update that runs leaves `latest_data` equal to `None`
after any failure (connection error, timeout, unparseable body), and equal to
the parsed JSON payload after a success. -/
theorem claim_C3 (st : UltimakerStatusData) (now : Nat) (net : NetBehavior)
    (hrun : canRun st.throttleLast now = true) :
    (netFailure net → ((asyncUpdateAt st now net).1).data = none)
    ∧ ∀ (t : Nat) (j : Json), net = NetBehavior.completes t (some j) → t ≤ REQUEST_TIMEOUT →
        ((asyncUpdateAt st now net).1).data = some j := by
  constructor
  · intro hfail
    simp only [asyncUpdateAt, hrun, if_true]
    exact asyncUpdateRaw_failure st net hfail
  · intro t j hnet ht
    subst hnet
    simp only [asyncUpdateAt, hrun, if_true]
    exact asyncUpdateRaw_success st t j ht

theorem claim_C3_witness :
    canRun ((initData "printer.local").throttleLast) 0 = true
    ∧ ((asyncUpdateAt (initData "printer.local") 0
        (NetBehavior.completes 1 (some (Json.arr [])))).1).data = some (Json.arr []) :=
  ⟨rfl, (claim_C3 (initData "printer.local") 0
    (NetBehavior.completes 1 (some (Json.arr []))) rfl).2 1 (Json.arr []) rfl (by decide)⟩

/-- C5: for every cached array payload, the active sensor's state after an
update is the boolean that is true exactly when the array of print jobs is
non-empty. -/
theorem claim_C5 (st : Option SensorState) (xs : List Json) :
    sensorUpdate "3dprintactive" st (some (Json.arr xs))
      = .ok (some (SensorState.b (decide (0 < xs.length))))
    ∧ (0 < xs.length ↔ xs ≠ []) := by
  refine ⟨?_, List.length_pos⟩
  cases xs with
  | nil => rfl
  | cons x xs => simp [sensorUpdate, pyLen]

/-- C6: the upstream request is bounded by a 5-second timeout; when it does
not complete within 5 seconds the poll is abandoned and treated as a failure
(the cache becomes `None`). -/
theorem claim_C6 :
    REQUEST_TIMEOUT = 5
    ∧ ∀ (st : UltimakerStatusData) (t : Nat) (body : Option Json),
        REQUEST_TIMEOUT < t →
        (asyncUpdateRaw st (NetBehavior.completes t body)).data = none := by
  refine ⟨rfl, ?_⟩
  intro st t body ht
  exact asyncUpdateRaw_failure st _ (Or.inl ht)

theorem claim_C6_witness :
    REQUEST_TIMEOUT = 5
    ∧ (asyncUpdateRaw (initData "printer.local")
        (NetBehavior.completes 6 (some (Json.arr [Json.null])))).data = none :=
  ⟨claim_C6.1, claim_C6.2 (initData "printer.local") 6 (some (Json.arr [Json.null])) (by decide)⟩

/-- C7: the request URL is the fixed function
`http://{0}/cluster-api/v1/print_jobs/printing` of the configured host,
built once at construction, and no update ever changes it. -/
theorem claim_C7 (host : String) :
    (initData host).url = "http://" ++ host ++ "/cluster-api/v1/print_jobs/printing"
    ∧ ∀ (st : UltimakerStatusData) (now : Nat) (net : NetBehavior),
        ((asyncUpdateAt st now net).1).url = st.url := by
  refine ⟨pyFormat_BASE_URL host, ?_⟩
  intro st now net
  simp only [asyncUpdateAt]
  split
  · show (asyncUpdateRaw st net).url = st.url
    cases net with
    | fails => rfl
    | completes t body =>
      simp only [asyncUpdateRaw]
      split
      · rfl
      · cases body <;> rfl
  · rfl

lemma percentBranch_cases (st : Option SensorState) (ps : Json) (st' : Option SensorState)
    (h : percentBranch st ps = .ok st') :
    st' = st ∨ ∃ n : Int, st' = some (SensorState.i n) ∧ n ≤ 100 := by
  unfold percentBranch at h
  repeat' split at h
  all_goals cases h
  all_goals first
    | exact Or.inl rfl
    | exact Or.inr ⟨_, rfl, min_le_right _ _⟩

/-- C4 (amended): for a non-empty array payload whose first element carries
numeric `time_elapsed` and a numeric non-zero `time_total`, the percentage
sensor's state becomes `min(int((time_elapsed / time_total) * 100), 100)` —
the integer percentage capped at 100. -/
theorem claim_C4_amended (st : Option SensorState) (kvs : List (String × Json))
    (rest : List Json) (e t : ℚ)
    (he : kvs.lookup "time_elapsed" = some (Json.num e))
    (ht : kvs.lookup "time_total" = some (Json.num t))
    (ht0 : t ≠ 0) :
    sensorUpdate "3dprintpercentage" st (some (Json.arr (Json.obj kvs :: rest)))
      = .ok (some (SensorState.i (min (pyInt (e / t * 100)) 100))) := by
  simp [sensorUpdate, pyLen, percentBranch, pyIndexZero, pyContains, pyGetItem, he, ht, ht0,
    Json.isNull, asNumber]

/-- C4 (counterexample): at `time_elapsed = 200`, `time_total = 100` the
sensor's state becomes 100, not `int((200 / 100) * 100) = 200` as the claim
states: line 186 caps the value with `min(..., 100)`. -/
theorem claim_C4_counterexample :
    sensorUpdate "3dprintpercentage" none
        (some (Json.arr [Json.obj [("time_elapsed", Json.num 200), ("time_total", Json.num 100)]]))
      = .ok (some (SensorState.i 100))
    ∧ sensorUpdate "3dprintpercentage" none
        (some (Json.arr [Json.obj [("time_elapsed", Json.num 200), ("time_total", Json.num 100)]]))
      ≠ .ok (some (SensorState.i (pyInt ((200 : ℚ) / 100 * 100)))) := by
  have h2 : ((200 : ℚ) / 100 * 100) = 200 := by norm_num
  have h1 : sensorUpdate "3dprintpercentage" none
      (some (Json.arr [Json.obj [("time_elapsed", Json.num 200), ("time_total", Json.num 100)]]))
      = .ok (some (SensorState.i (min (pyInt ((200 : ℚ) / 100 * 100)) 100))) := rfl
  constructor
  · rw [h1, h2]
    rfl
  · rw [h1, h2]
    intro hcontra
    simp only [Except.ok.injEq, Option.some.injEq, SensorState.i.injEq] at hcontra
    rw [show pyInt ((200 : ℚ)) = 200 from rfl] at hcontra
    omega

theorem claim_C4_witness :
    sensorUpdate "3dprintpercentage" none
        (some (Json.arr [Json.obj [("time_elapsed", Json.num 200), ("time_total", Json.num 100)]]))
      = .ok (some (SensorState.i 100)) := by
  have h := claim_C4_amended none
      [("time_elapsed", Json.num 200), ("time_total", Json.num 100)] [] 200 100 rfl rfl (by decide)
  rw [h, show ((200 : ℚ) / 100 * 100) = 200 from by norm_num]
  rfl

/-- C8: whenever an update of the percentage sensor returns normally, its
state is either unchanged or an integer no greater than 100 (the `min` on
line 186 caps it even when `time_elapsed` exceeds `time_total`). -/
theorem claim_C8 (st st' : Option SensorState) (printstatus : Option Json)
    (h : sensorUpdate "3dprintpercentage" st printstatus = .ok st') :
    st' = st ∨ ∃ n : Int, st' = some (SensorState.i n) ∧ n ≤ 100 := by
  simp only [sensorUpdate] at h
  repeat' split at h
  all_goals try exact percentBranch_cases _ _ _ h
  all_goals try (cases h; exact Or.inl rfl)
  all_goals try (cases h)
  all_goals try (exact absurd ‹"3dprintpercentage" = "3dprintactive"› (by decide))
  all_goals simp_all

theorem claim_C8_witness :
    (some (SensorState.b true) = some (SensorState.b true)
      ∨ ∃ n : Int, some (SensorState.b true) = some (SensorState.i n) ∧ n ≤ 100) :=
  claim_C8 (some (SensorState.b true)) (some (SensorState.b true)) (some (Json.arr [])) rfl

/-- C9: the time, total and percentage sensors keep their previous state
unchanged whenever no value can be derived: the job array is empty, the first
job element lacks the required key(s), or a required value is `None`. -/
theorem claim_C9 (ty : String) (st : Option SensorState)
    (hty : ty = "3dprinttimeelapsed" ∨ ty = "3dprinttotal" ∨ ty = "3dprintpercentage") :
    sensorUpdate ty st (some (Json.arr [])) = .ok st
    ∧ ∀ (kvs : List (String × Json)) (rest : List Json),
        (ty = "3dprinttimeelapsed" →
          (kvs.lookup "time_elapsed" = none ∨ kvs.lookup "time_elapsed" = some Json.null) →
          sensorUpdate ty st (some (Json.arr (Json.obj kvs :: rest))) = .ok st)
        ∧ (ty = "3dprinttotal" →
          (kvs.lookup "time_total" = none ∨ kvs.lookup "time_total" = some Json.null) →
          sensorUpdate ty st (some (Json.arr (Json.obj kvs :: rest))) = .ok st)
        ∧ (ty = "3dprintpercentage" →
          (kvs.lookup "time_elapsed" = none ∨ kvs.lookup "time_elapsed" = some Json.null
            ∨ kvs.lookup "time_total" = none ∨ kvs.lookup "time_total" = some Json.null) →
          sensorUpdate ty st (some (Json.arr (Json.obj kvs :: rest))) = .ok st) := by
  constructor
  · rcases hty with rfl | rfl | rfl <;> rfl
  · intro kvs rest
    refine ⟨?_, ?_, ?_⟩
    · rintro rfl hk
      rcases hk with hk | hk <;>
        simp [sensorUpdate, pyLen, timeBranch, pyIndexZero, pyContains, pyGetItem, hk, Json.isNull]
    · rintro rfl hk
      rcases hk with hk | hk <;>
        simp [sensorUpdate, pyLen, timeBranch, pyIndexZero, pyContains, pyGetItem, hk, Json.isNull]
    · rintro rfl hk
      rcases hk with hk | hk | hk | hk
      · simp [sensorUpdate, pyLen, percentBranch, pyIndexZero, pyContains, pyGetItem, hk,
          Json.isNull]
      · simp [sensorUpdate, pyLen, percentBranch, pyIndexZero, pyContains, pyGetItem, hk,
          Json.isNull]
      · simp [sensorUpdate, pyLen, percentBranch, pyIndexZero, pyContains, pyGetItem, hk,
          Json.isNull]
      · rcases hle : List.lookup "time_elapsed" kvs with _ | v
        · simp [sensorUpdate, pyLen, percentBranch, pyIndexZero, pyContains, pyGetItem, hle, hk,
            Json.isNull]
        · simp [sensorUpdate, pyLen, percentBranch, pyIndexZero, pyContains, pyGetItem, hle, hk,
            Json.isNull]

theorem claim_C9_witness :
    ("3dprinttimeelapsed" = "3dprinttimeelapsed" ∨ "3dprinttimeelapsed" = "3dprinttotal"
      ∨ "3dprinttimeelapsed" = "3dprintpercentage")
    ∧ sensorUpdate "3dprinttimeelapsed" (some (SensorState.i 5)) (some (Json.arr []))
        = .ok (some (SensorState.i 5)) :=
  ⟨Or.inl rfl, (claim_C9 "3dprinttimeelapsed" (some (SensorState.i 5)) (Or.inl rfl)).1⟩

/-- C10: the time-elapsed and time-total sensors render their seconds value
through UTC time-of-day formatting, so the displayed string equals that of
the duration reduced modulo 24 hours; a 25-hour duration (90000 s) shows as
`01:00` instead of 25 hours. -/
theorem claim_C10 (st : Option SensorState) (s : Nat) :
    sensorUpdate "3dprinttimeelapsed" st
        (some (Json.arr [Json.obj [("time_elapsed", Json.num (s : ℚ))]]))
      = .ok (some (SensorState.s (strftimeHM (s : Int))))
    ∧ sensorUpdate "3dprinttotal" st
        (some (Json.arr [Json.obj [("time_total", Json.num (s : ℚ))]]))
      = .ok (some (SensorState.s (strftimeHM (s : Int))))
    ∧ strftimeHM (s : Int) = strftimeHM ((s % 86400 : Nat) : Int)
    ∧ strftimeHM ((90000 : Nat) : Int) = "01:00" := by
  refine ⟨?_, ?_, ?_, rfl⟩
  · simp [sensorUpdate, pyLen, timeBranch, pyIndexZero, pyContains, pyGetItem, Json.isNull,
      asNumber, gmFloor_natCast, List.lookup]
  · simp [sensorUpdate, pyLen, timeBranch, pyIndexZero, pyContains, pyGetItem, Json.isNull,
      asNumber, gmFloor_natCast, List.lookup]
  · have hmod : ((s : Int)) % 86400 = (((s % 86400 : Nat) : Int)) % 86400 := by omega
    simp only [strftimeHM, hmod]

end Ultimaker
